import Mathlib

/-!
Shallow embedding of the offline-first signature persistence and
synchronization subsystem of `src/src/services/signatureService.ts`
(class `SignatureService`), together with the PDF annotation engine
(`applySignatureToPdf`).  JavaScript `Uint8Array` buffers are modelled as
lists of bytes (`Fin 256`), the two `localStorage` cells as a two-field
`Storage` record whose cells hold either nothing (key absent), corrupt
text (unparseable by `JSON.parse`), or the parsed value, and thrown
exceptions as `Except` errors.  The external `pdf-lib` library is
abstracted by a `PdfLib` record of its three operations used by the code;
the numeric type of image dimensions and coordinates is `ℚ`.
-/

/-- One byte, the element type of a `Uint8Array`. -/
abbrev Byte := Fin 256

/-- The `documentType` union type `'invoice' | 'receipt'`. -/
inductive DocType where
  | invoice
  | receipt
deriving DecidableEq, Repr

/-- The `SignatureData` interface of `signatureService.ts` (lines 4-11). -/
structure SignatureData where
  id : String
  documentId : String
  documentType : DocType
  signatureDataUrl : String
  timestamp : Nat
  synced : Bool
deriving DecidableEq, Repr

/-- The placement `{ x, y, pageIndex }` passed to `savePDFSignature` and
`applySignatureToPdf`.  Coordinates are JavaScript numbers, modelled as
rationals; `pageIndex` is an integer (it indexes the page array). -/
structure Position where
  x : ℚ
  y : ℚ
  pageIndex : Int
deriving DecidableEq, Repr

/-- The in-memory `PDFSignatureData` interface (lines 13-17): byte fields
are live `Uint8Array`s. -/
structure PDFSignatureData extends SignatureData where
  originalPdfBytes : Option (List Byte)
  signedPdfBytes : Option (List Byte)
  signaturePosition : Option Position
deriving DecidableEq, Repr

/-- The shape actually written to `localStorage` for a PDF record: the
spread in `savePDFSignature` (lines 73-78) and `markPDFAsSynced`
(lines 177-181) replaces each byte field by `Array.from(bytes)`, a plain
array of integers. -/
structure StoredPDFRecord extends SignatureData where
  originalPdfBytes : Option (List Nat)
  signedPdfBytes : Option (List Nat)
  signaturePosition : Option Position
deriving DecidableEq, Repr

/-- `Array.from` on a `Uint8Array`: the byte buffer as a sequence of
integers 0-255.  This is the storage encoding of the binary codec. -/
def encodeForStorage (b : List Byte) : List Nat :=
  b.map Fin.val

/-- `new Uint8Array(n)` element conversion: a JavaScript number is taken
modulo 2^8 when stored into a `Uint8Array`. -/
def byteOfNat (a : Nat) : Byte :=
  ⟨a % 256, Nat.mod_lt a (by decide)⟩

/-- `new Uint8Array(arr)` on a stored integer array: rebuilds the byte
buffer.  This is the storage decoding of the binary codec. -/
def decodeFromStorage (s : List Nat) : List Byte :=
  s.map byteOfNat

/-- A `localStorage` cell for one key: `none` when the key is absent
(`getItem` returns `null`), `corrupt` when it holds text `JSON.parse`
rejects (or that does not decode to an array of records), and `val v`
when it holds the serialization of `v`. -/
inductive StoredContent (α : Type) where
  | corrupt
  | val (v : α)
deriving DecidableEq, Repr

/-- The two `localStorage` cells the service uses: `plain` is the cell
under `STORAGE_KEY`, `pdf` the cell under `PDF_STORAGE_KEY`. -/
structure Storage where
  plain : Option (StoredContent (List SignatureData))
  pdf : Option (StoredContent (List StoredPDFRecord))
deriving DecidableEq, Repr

/-- A fresh store: both keys absent. -/
def emptyStorage : Storage := ⟨none, none⟩

/-- Exceptions the embedded code can throw. -/
inductive PdfLibError where
  | loadError
  | embedError
deriving DecidableEq, Repr

/-- Errors of the service: a `JSON.parse` failure on corrupt stored text,
a failure inside the external `pdf-lib` operations, or the explicit
`Error` thrown for an out-of-bounds page index (line 97). -/
inductive JsError where
  | decodeError
  | libError (e : PdfLibError)
  | pageOutOfBounds (i : Int)
deriving DecidableEq, Repr

/-- `getStoredSignatures` (lines 144-147):
`signaturesJson ? JSON.parse(signaturesJson) : []`.  There is no
try/catch here, so a corrupt cell makes `JSON.parse` throw and the
exception propagates to the caller. -/
def getStoredSignatures (st : Storage) : Except JsError (List SignatureData) :=
  match st.plain with
  | none => .ok []
  | some .corrupt => .error .decodeError
  | some (.val v) => .ok v

/-- Conversion of one stored PDF record back to its in-memory form, as in
`getStoredPDFSignatures` (lines 132-136): byte fields are rebuilt with
`new Uint8Array`, the rest of the record is spread unchanged. -/
def storedToMem (r : StoredPDFRecord) : PDFSignatureData :=
  { r.toSignatureData with
    originalPdfBytes := r.originalPdfBytes.map decodeFromStorage
    signedPdfBytes := r.signedPdfBytes.map decodeFromStorage
    signaturePosition := r.signaturePosition }

/-- Conversion of one in-memory PDF record to its stored form, as in
`savePDFSignature` (lines 73-78) and `markPDFAsSynced` (lines 177-181):
byte fields become `Array.from(bytes)`, the rest is spread unchanged. -/
def memToStored (r : PDFSignatureData) : StoredPDFRecord :=
  { r.toSignatureData with
    originalPdfBytes := r.originalPdfBytes.map encodeForStorage
    signedPdfBytes := r.signedPdfBytes.map encodeForStorage
    signaturePosition := r.signaturePosition }

/-- `getStoredPDFSignatures` (lines 124-141): absent key gives `[]`, and
the whole parse-and-map is wrapped in try/catch returning `[]` on any
error, so this operation never throws. -/
def getStoredPDFSignatures (st : Storage) : List PDFSignatureData :=
  match st.pdf with
  | none => []
  | some .corrupt => []
  | some (.val v) => v.map storedToMem

/-- Decoding a byte value stored by `Array.from` recovers the byte. -/
theorem byteOfNat_val (b : Byte) : byteOfNat b.val = b :=
  Fin.ext (Nat.mod_eq_of_lt b.isLt)

/-- The binary codec round-trips every byte buffer. -/
theorem decode_encode (b : List Byte) :
    decodeFromStorage (encodeForStorage b) = b := by
  induction b with
  | nil => rfl
  | cons h t ih =>
    simp only [decodeFromStorage, encodeForStorage, List.map_cons, List.map_map] at *
    simp [byteOfNat_val, ih]

/-- Storing one PDF record and reading it back is the identity. -/
theorem storedToMem_memToStored (r : PDFSignatureData) :
    storedToMem (memToStored r) = r := by
  cases r with
  | mk base o s p =>
    simp only [storedToMem, memToStored]
    cases o <;> cases s <;> simp [decode_encode]

/-- A raster image embedded into a PDF, as returned by
`pdfDoc.embedPng`: its intrinsic width and height. -/
structure PdfImage where
  width : ℚ
  height : ℚ
deriving DecidableEq, Repr

/-- One `page.drawImage(image, { x, y, width, height })` call recorded on
a page. -/
structure DrawOp where
  image : PdfImage
  x : ℚ
  y : ℚ
  width : ℚ
  height : ℚ
deriving DecidableEq, Repr

/-- A page of a parsed PDF document: the draw operations applied to it. -/
structure PdfPage where
  ops : List DrawOp
deriving DecidableEq, Repr

/-- A parsed PDF document: its ordered page collection. -/
structure PdfDoc where
  pages : List PdfPage
deriving DecidableEq, Repr

/-- The operations of the external `pdf-lib` package that
`applySignatureToPdf` uses: `PDFDocument.load`, `pdfDoc.embedPng` and
`pdfDoc.save`.  Load and embed may reject; save serializes the document
to bytes. -/
structure PdfLib where
  load : List Byte → Except PdfLibError PdfDoc
  embedPng : String → Except PdfLibError PdfImage
  save : PdfDoc → List Byte

/-- JavaScript array indexing `l[i]` for an integer index: `undefined`
(here `none`) when `i` is negative or at least the length. -/
def jsIndex {α : Type} (l : List α) (i : Int) : Option α :=
  if i < 0 then none else l.get? i.toNat

/-- Replacing the element at a JavaScript integer index (the in-place
mutation of the resolved page object inside the document). -/
def jsSet {α : Type} (l : List α) (i : Int) (v : α) : List α :=
  if i < 0 then l else l.set i.toNat v

/-- `signatureImage.scale(factor)` of `pdf-lib`: both dimensions
multiplied by the factor. -/
def scaleImage (img : PdfImage) (factor : ℚ) : ℚ × ℚ :=
  (img.width * factor, img.height * factor)

/-- Lines 100-113 of `applySignatureToPdf`, after the page has resolved:
embed the signature image (`pdfDoc.embedPng`), compute
`signatureImage.scale(200 / signatureImage.width)` (the fixed
`signatureWidth = 200`), and draw the image at
`(position.x, position.y)` with the scaled dimensions on the resolved
page of the document. -/
def annotatePage (lib : PdfLib) (pdfDoc : PdfDoc) (page : PdfPage)
    (signatureDataUrl : String) (position : Position) :
    Except JsError PdfDoc :=
  match lib.embedPng signatureDataUrl with
  | .error e => .error (.libError e)
  | .ok signatureImage =>
    let signatureDimensions :=
      scaleImage signatureImage (200 / signatureImage.width)
    let page' : PdfPage :=
      { ops := page.ops ++
          [{ image := signatureImage, x := position.x, y := position.y,
             width := signatureDimensions.1,
             height := signatureDimensions.2 }] }
    .ok { pages := jsSet pdfDoc.pages position.pageIndex page' }

/-- Lines 93-113 of `applySignatureToPdf`, after the document has
loaded: `pages[position.pageIndex]` with the `if (!page) throw` guard
(line 96-98), then the embed-scale-draw step. -/
def annotateLoaded (lib : PdfLib) (pdfDoc : PdfDoc)
    (signatureDataUrl : String) (position : Position) :
    Except JsError PdfDoc :=
  match jsIndex pdfDoc.pages position.pageIndex with
  | none => .error (.pageOutOfBounds position.pageIndex)
  | some page => annotatePage lib pdfDoc page signatureDataUrl position

/-- `applySignatureToPdf` up to the mutation of the in-memory document
(lines 91-113): load the PDF (`PDFDocument.load`), then resolve the page
and draw the scaled signature image onto it. -/
def annotateDoc (lib : PdfLib) (pdfBytes : List Byte)
    (signatureDataUrl : String) (position : Position) :
    Except JsError PdfDoc :=
  match lib.load pdfBytes with
  | .error e => .error (.libError e)
  | .ok pdfDoc => annotateLoaded lib pdfDoc signatureDataUrl position

/-- `applySignatureToPdf` (lines 86-121): mutate the in-memory document,
then `pdfDoc.save()`.  The catch block only logs and rethrows the same
error, so every failure propagates unchanged. -/
def applySignatureToPdf (lib : PdfLib) (pdfBytes : List Byte)
    (signatureDataUrl : String) (position : Position) :
    Except JsError (List Byte) :=
  (annotateDoc lib pdfBytes signatureDataUrl position).map lib.save

/-- `getUnsyncedSignatures` (lines 150-152): the stored plain sequence
filtered on `!sig.synced`; propagates a decode failure of the read. -/
def getUnsyncedSignatures (st : Storage) :
    Except JsError (List SignatureData) :=
  (getStoredSignatures st).map (List.filter fun sig => !sig.synced)

/-- `getUnsyncedPDFSignatures` (lines 155-157). -/
def getUnsyncedPDFSignatures (st : Storage) : List PDFSignatureData :=
  (getStoredPDFSignatures st).filter fun sig => !sig.synced

/-- `attemptSync` (lines 185-200).  `online` is `navigator.onLine` at
call time.  The synchronous part of the call touches no storage; the
`setTimeout` callback is only registered, so the result carries the
snapshot of records it captured (`[]` when no push was scheduled)
together with the unchanged storage. -/
def attemptSync (online : Bool) (st : Storage) :
    Except JsError (Storage × List SignatureData) :=
  if !online then .ok (st, [])
  else
    match getUnsyncedSignatures st with
    | .error e => .error e
    | .ok unsyncedSignatures =>
      if unsyncedSignatures.length = 0 then .ok (st, [])
      else .ok (st, unsyncedSignatures)

/-- `attemptSyncPDF` (lines 203-218): same shape, but the PDF read never
throws, so neither does this call. -/
def attemptSyncPDF (online : Bool) (st : Storage) :
    Storage × List PDFSignatureData :=
  if !online then (st, [])
  else
    let unsyncedSignatures := getUnsyncedPDFSignatures st
    if unsyncedSignatures.length = 0 then (st, [])
    else (st, unsyncedSignatures)

/-- `saveSignature` (lines 24-42): read the stored sequence, construct
the record with `synced: false`, append, write the whole sequence back,
then call `attemptSync`.  `newId` stands for `crypto.randomUUID()` and
`now` for `Date.now()`.  The result pairs the call's outcome (the
returned record and the sync snapshot, or the thrown error) with the
storage after the call. -/
def saveSignature (online : Bool) (newId : String) (now : Nat)
    (st : Storage) (documentId : String) (documentType : DocType)
    (signatureDataUrl : String) :
    Except JsError (SignatureData × List SignatureData) × Storage :=
  match getStoredSignatures st with
  | .error e => (.error e, st)
  | .ok signatures =>
    let signatureData : SignatureData :=
      { id := newId, documentId := documentId,
        documentType := documentType,
        signatureDataUrl := signatureDataUrl,
        timestamp := now, synced := false }
    let signatures' := signatures ++ [signatureData]
    let st' : Storage := { st with plain := some (.val signatures') }
    match attemptSync online st' with
    | .error e => (.error e, st')
    | .ok (st'', scheduled) => (.ok (signatureData, scheduled), st'')

/-- `savePDFSignature` (lines 45-83): read the stored PDF sequence, run
the annotation engine — a failure there propagates before anything is
written — then construct the record with `documentType: 'invoice'` and
`synced: false`, append, write the encoded sequence back, and call
`attemptSyncPDF`. -/
def savePDFSignature (lib : PdfLib) (online : Bool) (newId : String)
    (now : Nat) (st : Storage) (documentId : String)
    (originalPdfBytes : List Byte) (signatureDataUrl : String)
    (signaturePosition : Position) :
    Except JsError (PDFSignatureData × List PDFSignatureData) × Storage :=
  let pdfSignatures := getStoredPDFSignatures st
  match applySignatureToPdf lib originalPdfBytes signatureDataUrl
      signaturePosition with
  | .error e => (.error e, st)
  | .ok signedPdfBytes =>
    let pdfSignatureData : PDFSignatureData :=
      { id := newId, documentId := documentId,
        documentType := .invoice,
        signatureDataUrl := signatureDataUrl,
        timestamp := now, synced := false,
        originalPdfBytes := some originalPdfBytes,
        signedPdfBytes := some signedPdfBytes,
        signaturePosition := some signaturePosition }
    let pdfSignatures' := pdfSignatures ++ [pdfSignatureData]
    let st' : Storage :=
      { st with pdf := some (.val (pdfSignatures'.map memToStored)) }
    let r := attemptSyncPDF online st'
    (.ok (pdfSignatureData, r.2), r.1)

/-- The per-record update `sig.id === id ? { ...sig, synced: true } : sig`
of `markAsSynced` (lines 162-164). -/
def markUpd (id : String) (sig : SignatureData) : SignatureData :=
  if sig.id = id then { sig with synced := true } else sig

/-- The same update for PDF records (`markPDFAsSynced`, lines 172-174). -/
def markUpdPdf (id : String) (sig : PDFSignatureData) : PDFSignatureData :=
  if sig.id = id then { sig with synced := true } else sig

/-- `markAsSynced` (lines 160-167): read the stored sequence — a corrupt
cell makes this throw — map the update over it and write it back. -/
def markAsSynced (id : String) (st : Storage) :
    Except JsError Unit × Storage :=
  match getStoredSignatures st with
  | .error e => (.error e, st)
  | .ok signatures =>
    let updatedSignatures := signatures.map (markUpd id)
    (.ok (), { st with plain := some (.val updatedSignatures) })

/-- `markPDFAsSynced` (lines 170-182): the PDF read never throws; the
updated sequence is written back in its storage encoding. -/
def markPDFAsSynced (id : String) (st : Storage) : Storage :=
  let signatures := getStoredPDFSignatures st
  let updatedSignatures := signatures.map (markUpdPdf id)
  { st with pdf := some (.val (updatedSignatures.map memToStored)) }

/-- C1: decoding the storage encoding of any byte buffer `b`, the empty
buffer and buffers containing byte value 0 included, yields `b` exactly:
`decodeFromStorage (encodeForStorage b) = b`. -/
theorem c1_codec_round_trip (b : List Byte) :
    decodeFromStorage (encodeForStorage b) = b :=
  decode_encode b

/-- A one-page document used to instantiate the engine theorems. -/
def doc1 : PdfDoc := ⟨[⟨[]⟩]⟩

/-- A 400 by 100 signature image (the spec's scenario dimensions). -/
def img400 : PdfImage := ⟨400, 100⟩

/-- A `pdf-lib` behaviour where load and embed succeed. -/
def okLib : PdfLib :=
  ⟨fun _ => .ok doc1, fun _ => .ok img400, fun _ => []⟩

/-- A `pdf-lib` behaviour where loading the document rejects. -/
def failLib : PdfLib :=
  ⟨fun _ => .error .loadError, fun _ => .error .embedError, fun _ => []⟩

/-- A negative JavaScript index reads as `undefined`. -/
theorem jsIndex_neg {α : Type} (l : List α) (i : Int) (h : i < 0) :
    jsIndex l i = none := by
  simp [jsIndex, h]

/-- A JavaScript index at or past the length reads as `undefined`. -/
theorem jsIndex_ge {α : Type} (l : List α) (i : Int)
    (h : (l.length : Int) ≤ i) : jsIndex l i = none := by
  unfold jsIndex
  rw [if_neg (by omega)]
  exact List.get?_eq_none.mpr (by omega)

/-- An in-range JavaScript index reads as `some`. -/
theorem jsIndex_isSome {α : Type} (l : List α) (i : Int) (h0 : 0 ≤ i)
    (hlt : i < (l.length : Int)) : (jsIndex l i).isSome = true := by
  unfold jsIndex
  rw [if_neg (by omega)]
  rw [List.get?_eq_get (by omega)]
  rfl

/-- C2: whenever the annotation step fails, `savePDFSignature` returns
the very same error and the storage is untouched, so the stored
PDF-signature sequence after the failing call equals the one before. -/
theorem c2_no_partial_record_on_failure (lib : PdfLib) (online : Bool)
    (newId : String) (now : Nat) (st : Storage) (documentId : String)
    (originalPdfBytes : List Byte) (signatureDataUrl : String)
    (signaturePosition : Position) (e : JsError)
    (h : applySignatureToPdf lib originalPdfBytes signatureDataUrl
        signaturePosition = .error e) :
    savePDFSignature lib online newId now st documentId originalPdfBytes
        signatureDataUrl signaturePosition = (.error e, st) ∧
    getStoredPDFSignatures
        (savePDFSignature lib online newId now st documentId
          originalPdfBytes signatureDataUrl signaturePosition).2 =
      getStoredPDFSignatures st := by
  unfold savePDFSignature
  rw [h]
  exact ⟨rfl, rfl⟩

/-- C2 witness: a load failure propagates out of `savePDFSignature` on a
fresh store, leaving the store untouched. -/
theorem c2_no_partial_record_on_failure_witness :
    savePDFSignature failLib true "id1" 0 emptyStorage "doc" [] "sig"
        ⟨10, 20, 0⟩ = (.error (.libError .loadError), emptyStorage) :=
  (c2_no_partial_record_on_failure failLib true "id1" 0 emptyStorage
    "doc" [] "sig" ⟨10, 20, 0⟩ (.libError .loadError) rfl).1

/-- The page after the engine has drawn the scaled signature image on
it: the draw call of lines 108-113, with the dimensions computed by
`signatureImage.scale(200 / signatureImage.width)`. -/
def drawnPage (page : PdfPage) (img : PdfImage) (pos : Position) : PdfPage :=
  { ops := page.ops ++
      [{ image := img, x := pos.x, y := pos.y,
         width := (scaleImage img (200 / img.width)).1,
         height := (scaleImage img (200 / img.width)).2 }] }

/-- Unfolding of `annotateDoc` once the document has loaded. -/
theorem annotateDoc_load_ok (lib : PdfLib) (pdfBytes : List Byte)
    (url : String) (pos : Position) (doc : PdfDoc)
    (hload : lib.load pdfBytes = .ok doc) :
    annotateDoc lib pdfBytes url pos = annotateLoaded lib doc url pos := by
  unfold annotateDoc
  rw [hload]

/-- Unfolding of `annotateLoaded` when the page lookup is `undefined`. -/
theorem annotateLoaded_none (lib : PdfLib) (doc : PdfDoc) (url : String)
    (pos : Position) (h : jsIndex doc.pages pos.pageIndex = none) :
    annotateLoaded lib doc url pos =
      .error (.pageOutOfBounds pos.pageIndex) := by
  unfold annotateLoaded
  rw [h]

/-- Unfolding of `annotateLoaded` when the page resolves. -/
theorem annotateLoaded_some (lib : PdfLib) (doc : PdfDoc) (url : String)
    (pos : Position) (page : PdfPage)
    (h : jsIndex doc.pages pos.pageIndex = some page) :
    annotateLoaded lib doc url pos = annotatePage lib doc page url pos := by
  unfold annotateLoaded
  rw [h]

/-- Unfolding of `annotatePage` when the image embeds. -/
theorem annotatePage_embed_ok (lib : PdfLib) (doc : PdfDoc)
    (page : PdfPage) (url : String) (pos : Position) (img : PdfImage)
    (h : lib.embedPng url = .ok img) :
    annotatePage lib doc page url pos =
      .ok { pages := jsSet doc.pages pos.pageIndex
              (drawnPage page img pos) } := by
  unfold annotatePage
  rw [h]
  rfl

/-- Unfolding of `annotatePage` when embedding rejects. -/
theorem annotatePage_embed_error (lib : PdfLib) (doc : PdfDoc)
    (page : PdfPage) (url : String) (pos : Position) (e : PdfLibError)
    (h : lib.embedPng url = .error e) :
    annotatePage lib doc page url pos = .error (.libError e) := by
  unfold annotatePage
  rw [h]

/-- C3: once the document has loaded with its page collection, a page
index below 0 or at least the page count makes `applySignatureToPdf`
fail with the page-out-of-bounds error for that index, while an in-range
index resolves a page and the call never fails with a page-out-of-bounds
error. -/
theorem c3_annotation_bounds (lib : PdfLib) (pdfBytes : List Byte)
    (url : String) (pos : Position) (doc : PdfDoc)
    (hload : lib.load pdfBytes = .ok doc) :
    ((pos.pageIndex < 0 ∨ (doc.pages.length : Int) ≤ pos.pageIndex) →
      applySignatureToPdf lib pdfBytes url pos =
        .error (.pageOutOfBounds pos.pageIndex)) ∧
    (0 ≤ pos.pageIndex → pos.pageIndex < (doc.pages.length : Int) →
      (jsIndex doc.pages pos.pageIndex).isSome = true ∧
      ∀ j, applySignatureToPdf lib pdfBytes url pos ≠
        .error (.pageOutOfBounds j)) := by
  constructor
  · intro hout
    have hnone : jsIndex doc.pages pos.pageIndex = none := by
      rcases hout with h | h
      · exact jsIndex_neg _ _ h
      · exact jsIndex_ge _ _ h
    unfold applySignatureToPdf
    rw [annotateDoc_load_ok lib pdfBytes url pos doc hload,
      annotateLoaded_none lib doc url pos hnone]
    rfl
  · intro h0 hlt
    refine ⟨jsIndex_isSome _ _ h0 hlt, ?_⟩
    intro j
    have hsome : (jsIndex doc.pages pos.pageIndex).isSome = true :=
      jsIndex_isSome _ _ h0 hlt
    obtain ⟨page, hpage⟩ := Option.isSome_iff_exists.mp hsome
    unfold applySignatureToPdf
    rw [annotateDoc_load_ok lib pdfBytes url pos doc hload,
      annotateLoaded_some lib doc url pos page hpage]
    cases hembed : lib.embedPng url with
    | error e =>
      rw [annotatePage_embed_error lib doc page url pos e hembed]
      simp [Except.map]
    | ok img =>
      rw [annotatePage_embed_ok lib doc page url pos img hembed]
      simp [Except.map]

/-- C3 witness: on a loaded one-page document, page index -1 fails with
the page-out-of-bounds error. -/
theorem c3_annotation_bounds_witness :
    applySignatureToPdf okLib [] "sig" ⟨10, 20, -1⟩ =
      .error (.pageOutOfBounds (-1)) :=
  (c3_annotation_bounds okLib [] "sig" ⟨10, 20, -1⟩ doc1 rfl).1
    (Or.inl (by decide))

/-- C4: when the document loads, the page resolves and the image embeds
with positive intrinsic width, the engine draws the image at the

placement with width exactly 200 and height exactly
`200 * (inputHeight / inputWidth)` (the uniform factor
`200 / inputWidth` applied to both dimensions), and returns the saved
bytes of that document. -/
theorem c4_scale_invariant (lib : PdfLib) (pdfBytes : List Byte)
    (url : String) (pos : Position) (doc : PdfDoc) (page : PdfPage)
    (img : PdfImage)
    (hload : lib.load pdfBytes = .ok doc)
    (hpage : jsIndex doc.pages pos.pageIndex = some page)
    (hembed : lib.embedPng url = .ok img)
    (hw : 0 < img.width) :
    annotateDoc lib pdfBytes url pos =
      .ok { pages := jsSet doc.pages pos.pageIndex (drawnPage page img pos) } ∧
    drawnPage page img pos =
      { ops := page.ops ++
          [{ image := img, x := pos.x, y := pos.y, width := 200,
             height := 200 * (img.height / img.width) }] } ∧
    applySignatureToPdf lib pdfBytes url pos =
      .ok (lib.save
        { pages := jsSet doc.pages pos.pageIndex (drawnPage page img pos) }) := by
  have hne : img.width ≠ 0 := ne_of_gt hw
  have hdims : scaleImage img (200 / img.width) =
      (200, 200 * (img.height / img.width)) := by
    unfold scaleImage
    have h1 : img.width * (200 / img.width) = 200 := by
      field_simp
    have h2 : img.height * (200 / img.width) =
        200 * (img.height / img.width) := by
      field_simp
      ring
    rw [h1, h2]
  have hdraw : drawnPage page img pos =
      { ops := page.ops ++
          [{ image := img, x := pos.x, y := pos.y, width := 200,
             height := 200 * (img.height / img.width) }] } := by
    unfold drawnPage
    rw [hdims]
  have hann : annotateDoc lib pdfBytes url pos =
      .ok { pages := jsSet doc.pages pos.pageIndex (drawnPage page img pos) } := by
    rw [annotateDoc_load_ok lib pdfBytes url pos doc hload,
      annotateLoaded_some lib doc url pos page hpage,
      annotatePage_embed_ok lib doc page url pos img hembed]
  refine ⟨hann, hdraw, ?_⟩
  unfold applySignatureToPdf
  rw [hann]
  rfl

/-- C4 witness: a 400 by 100 image is drawn scaled to 200 by 50. -/
theorem c4_scale_invariant_witness :
    drawnPage ⟨[]⟩ img400 ⟨50, 700, 0⟩ =
      { ops := [{ image := img400, x := 50, y := 700, width := 200,
                  height := 200 * (img400.height / img400.width) }] } :=
  (c4_scale_invariant okLib [] "sig" ⟨50, 700, 0⟩ doc1 ⟨[]⟩ img400
    rfl rfl rfl (by norm_num [img400])).2.1

/-- C5 counterexample: on a plain-store cell holding unparseable text,
`getStoredSignatures` propagates the `JSON.parse` failure instead of
returning the empty sequence, because lines 144-147 have no try/catch. -/
theorem c5_counterexample_plain_listing_throws :
    getStoredSignatures ⟨some .corrupt, none⟩ =
      Except.error JsError.decodeError :=
  rfl

/-- C5 (amended): the PDF listing never throws — an absent key or
undecodable content yields the empty sequence — and the plain listing
yields the empty sequence for an absent key but propagates the decode
failure when the stored content is unparseable. -/
theorem c5_listing_decode_behaviour (st : Storage) :
    (st.pdf = some .corrupt → getStoredPDFSignatures st = []) ∧
    (st.pdf = none → getStoredPDFSignatures st = []) ∧
    (st.plain = none → getStoredSignatures st = .ok []) ∧
    (st.plain = some .corrupt →
      getStoredSignatures st = .error .decodeError) := by
  refine ⟨fun h => ?_, fun h => ?_, fun h => ?_, fun h => ?_⟩
  · simp [getStoredPDFSignatures, h]
  · simp [getStoredPDFSignatures, h]
  · simp [getStoredSignatures, h]
  · simp [getStoredSignatures, h]

/-- C5 witness: concrete corrupt PDF cell and absent plain cell. -/
theorem c5_listing_decode_behaviour_witness :
    getStoredPDFSignatures ⟨none, some .corrupt⟩ = [] ∧
    getStoredSignatures ⟨none, some .corrupt⟩ = .ok [] :=
  ⟨(c5_listing_decode_behaviour ⟨none, some .corrupt⟩).1 rfl,
   (c5_listing_decode_behaviour ⟨none, some .corrupt⟩).2.2.1 rfl⟩

/-- The per-record sync update is idempotent. -/
theorem markUpd_idem (id : String) (s : SignatureData) :
    markUpd id (markUpd id s) = markUpd id s := by
  by_cases h : s.id = id <;> simp [markUpd, h]

/-- The per-record sync update on PDF records is idempotent. -/
theorem markUpdPdf_idem (id : String) (s : PDFSignatureData) :
    markUpdPdf id (markUpdPdf id s) = markUpdPdf id s := by
  by_cases h : s.id = id <;> simp [markUpdPdf, h]

/-- The sync update leaves a sequence without the id untouched. -/
theorem map_markUpd_of_none (id : String) (l : List SignatureData)
    (h : ∀ s ∈ l, s.id ≠ id) : l.map (markUpd id) = l := by
  induction l with
  | nil => rfl
  | cons a t ih =>
    simp only [List.map_cons]
    rw [ih fun s hs => h s (List.mem_cons_of_mem a hs)]
    unfold markUpd
    rw [if_neg (h a (List.mem_cons_self a t))]

/-- The PDF sync update leaves a sequence without the id untouched. -/
theorem map_markUpdPdf_of_none (id : String) (l : List PDFSignatureData)
    (h : ∀ s ∈ l, s.id ≠ id) : l.map (markUpdPdf id) = l := by
  induction l with
  | nil => rfl
  | cons a t ih =>
    simp only [List.map_cons]
    rw [ih fun s hs => h s (List.mem_cons_of_mem a hs)]
    unfold markUpdPdf
    rw [if_neg (h a (List.mem_cons_self a t))]

/-- Reading the plain cell right after writing it parses back the
written sequence. -/
theorem getStoredSignatures_write (st : Storage) (l : List SignatureData) :
    getStoredSignatures { st with plain := some (.val l) } = .ok l :=
  rfl

/-- Reading the PDF cell right after writing an encoded sequence decodes
back the original records. -/
theorem getStoredPDFSignatures_write (st : Storage)
    (l : List PDFSignatureData) :
    getStoredPDFSignatures
      { st with pdf := some (.val (l.map memToStored)) } = l := by
  simp only [getStoredPDFSignatures, List.map_map]
  have h : storedToMem ∘ memToStored = id := by
    funext r
    exact storedToMem_memToStored r
  rw [h, List.map_id]

/-- What `markPDFAsSynced` leaves readable: the update mapped over the
previously readable sequence. -/
theorem getStored_markPdf (id : String) (st : Storage) :
    getStoredPDFSignatures (markPDFAsSynced id st) =
      (getStoredPDFSignatures st).map (markUpdPdf id) := by
  unfold markPDFAsSynced
  exact getStoredPDFSignatures_write st _

/-- Unfolding of `markAsSynced` when the read succeeds. -/
theorem markAsSynced_ok (id : String) (st : Storage)
    (l : List SignatureData) (h : getStoredSignatures st = .ok l) :
    markAsSynced id st =
      (.ok (), { st with plain := some (.val (l.map (markUpd id))) }) := by
  unfold markAsSynced
  rw [h]

/-- Unfolding of `markAsSynced` when the read throws. -/
theorem markAsSynced_error (id : String) (st : Storage) (e : JsError)
    (h : getStoredSignatures st = .error e) :
    markAsSynced id st = (.error e, st) := by
  unfold markAsSynced
  rw [h]

/-- Unfolding of `markPDFAsSynced` as the single write it performs. -/
theorem markPDFAsSynced_eq (id : String) (st : Storage) :
    markPDFAsSynced id st =
      { st with pdf := some (.val
          (((getStoredPDFSignatures st).map (markUpdPdf id)).map memToStored)) } :=
  rfl

/-- The mapped update composed with itself is the mapped update. -/
theorem comp_markUpd (id : String) :
    markUpd id ∘ markUpd id = markUpd id := by
  funext s
  exact markUpd_idem id s

/-- The mapped PDF update composed with itself is the mapped PDF update. -/
theorem comp_markUpdPdf (id : String) :
    markUpdPdf id ∘ markUpdPdf id = markUpdPdf id := by
  funext s
  exact markUpdPdf_idem id s

/-- A second `markAsSynced` with the same id returns the same outcome
and leaves the same storage as the first call. -/
theorem markAsSynced_idem (id : String) (st : Storage) :
    markAsSynced id (markAsSynced id st).2 = markAsSynced id st := by
  cases hs : getStoredSignatures st with
  | error e =>
    rw [markAsSynced_error id st e hs]
    show markAsSynced id st = (Except.error e, st)
    exact markAsSynced_error id st e hs
  | ok l =>
    rw [markAsSynced_ok id st l hs]
    show markAsSynced id { st with plain := some (.val (l.map (markUpd id))) } =
      (Except.ok (), { st with plain := some (.val (l.map (markUpd id))) })
    rw [markAsSynced_ok id _ (l.map (markUpd id))
        (getStoredSignatures_write st (l.map (markUpd id))),
      List.map_map, comp_markUpd id]

/-- Mapping the PDF sync update twice equals mapping it once. -/
theorem map_markUpdPdf_idem (id : String) (l : List PDFSignatureData) :
    (l.map (markUpdPdf id)).map (markUpdPdf id) = l.map (markUpdPdf id) := by
  rw [List.map_map, comp_markUpdPdf id]

/-- A second `markPDFAsSynced` with the same id leaves the same storage
as the first call. -/
theorem markPDFAsSynced_idem (id : String) (st : Storage) :
    markPDFAsSynced id (markPDFAsSynced id st) = markPDFAsSynced id st := by
  rw [markPDFAsSynced_eq id (markPDFAsSynced id st), getStored_markPdf id st,
    map_markUpdPdf_idem id _, markPDFAsSynced_eq id st]

/-- C6 counterexample: on a store whose plain cell holds unparseable
text — a store in which no id matches any record — `markAsSynced` is not
an error-free no-op: the decode failure of the read propagates out of
the call. -/
theorem c6_counterexample_mark_throws_on_corrupt :
    (markAsSynced "missing" ⟨some .corrupt, none⟩).1 =
      Except.error JsError.decodeError :=
  rfl

/-- C6 (amended): `markAsSynced` is idempotent on every store state (a
second identical call returns the same outcome and storage); when the
plain cell is absent or decodable, a call with an id matching no record
succeeds and leaves the stored sequence unchanged — but on an
undecodable plain cell it propagates the decode error instead of being
a no-op.  The PDF variant `markPDFAsSynced` is idempotent and an
error-free no-op on unknown ids for every store state. -/
theorem c6_mark_synced_idempotent_noop (id : String) (st : Storage) :
    markAsSynced id (markAsSynced id st).2 = markAsSynced id st ∧
    (∀ l, getStoredSignatures st = .ok l → (∀ s ∈ l, s.id ≠ id) →
      (markAsSynced id st).1 = .ok () ∧
      getStoredSignatures (markAsSynced id st).2 = .ok l) ∧
    markPDFAsSynced id (markPDFAsSynced id st) = markPDFAsSynced id st ∧
    ((∀ s ∈ getStoredPDFSignatures st, s.id ≠ id) →
      getStoredPDFSignatures (markPDFAsSynced id st) =
        getStoredPDFSignatures st) := by
  refine ⟨markAsSynced_idem id st, ?_, markPDFAsSynced_idem id st, ?_⟩
  · intro l hs hnone
    rw [markAsSynced_ok id st l hs]
    rw [map_markUpd_of_none id l hnone]
    exact ⟨rfl, getStoredSignatures_write st l⟩
  · intro hnone
    rw [getStored_markPdf id st]
    exact map_markUpdPdf_of_none id _ hnone

/-- C6 witness: marking an id absent from a fresh store succeeds and
leaves the (empty) stored sequence unchanged. -/
theorem c6_mark_synced_idempotent_noop_witness :
    (markAsSynced "zz" emptyStorage).1 = .ok () ∧
    getStoredSignatures (markAsSynced "zz" emptyStorage).2 = .ok [] :=
  (c6_mark_synced_idempotent_noop "zz" emptyStorage).2.1 [] rfl
    (by decide)

/-- The caller-supplied and environment-supplied inputs of one
`saveSignature` call: the fresh `crypto.randomUUID()` value, the
`Date.now()` value, and the three arguments. -/
structure SaveInput where
  newId : String
  now : Nat
  documentId : String
  documentType : DocType
  signatureDataUrl : String
deriving DecidableEq, Repr

/-- The record `saveSignature` constructs for one input (lines 27-34):
fresh id, the arguments, the timestamp, and `synced: false`. -/
def mkSignatureData (i : SaveInput) : SignatureData :=
  { id := i.newId, documentId := i.documentId,
    documentType := i.documentType,
    signatureDataUrl := i.signatureDataUrl,
    timestamp := i.now, synced := false }

/-- A sequence of `saveSignature` calls with the given inputs, starting
from the given storage, with no intervening sync completion (no
`setTimeout` callback runs).  Collects each call's outcome (the record
it returned, or the error it threw) and the final storage. -/
def runSaves (online : Bool) :
    List SaveInput → Storage → List (Except JsError SignatureData) × Storage
  | [], st => ([], st)
  | i :: rest, st =>
    let r := saveSignature online i.newId i.now st i.documentId
      i.documentType i.signatureDataUrl
    let rs := runSaves online rest r.2
    ((r.1.map Prod.fst) :: rs.1, rs.2)

/-- The synchronous part of `attemptSync` succeeds and touches no
storage whenever the plain cell decodes. -/
theorem attemptSync_of_ok (online : Bool) (st : Storage)
    (l : List SignatureData) (h : getStoredSignatures st = .ok l) :
    ∃ sch, attemptSync online st = .ok (st, sch) := by
  cases online with
  | false => exact ⟨[], rfl⟩
  | true =>
    unfold attemptSync getUnsyncedSignatures
    rw [h]
    by_cases hz : (l.filter fun s => !s.synced) = []
    · refine ⟨[], ?_⟩
      simp [Except.map, hz]
    · refine ⟨l.filter fun s => !s.synced, ?_⟩
      simp [Except.map, hz]

/-- The record literal of `saveSignature` is `mkSignatureData`. -/
theorem mkSignatureData_fold (i : SaveInput) :
    ({ id := i.newId, documentId := i.documentId, documentType := i.documentType, signatureDataUrl := i.signatureDataUrl, timestamp := i.now, synced := false } : SignatureData) = mkSignatureData i :=
  rfl

/-- Unfolding of one `saveSignature` call on a decodable store: the call
returns the constructed record and appends it to the stored sequence. -/
theorem saveSignature_ok (online : Bool) (i : SaveInput) (st : Storage)
    (l : List SignatureData) (h : getStoredSignatures st = .ok l) :
    (saveSignature online i.newId i.now st i.documentId i.documentType
        i.signatureDataUrl).1.map Prod.fst = .ok (mkSignatureData i) ∧
    (saveSignature online i.newId i.now st i.documentId i.documentType
        i.signatureDataUrl).2 =
      { st with plain := some (.val (l ++ [mkSignatureData i])) } := by
  unfold saveSignature
  rw [h]
  obtain ⟨sch, hsync⟩ := attemptSync_of_ok online
    { st with plain := some (.val (l ++ [mkSignatureData i])) }
    (l ++ [mkSignatureData i])
    (getStoredSignatures_write st (l ++ [mkSignatureData i]))
  rw [mkSignatureData_fold i]
  dsimp only
  rw [hsync]
  exact ⟨rfl, rfl⟩

/-- Running saves from any decodable store appends the constructed
records in call order and returns each of them. -/
theorem runSaves_ok (online : Bool) (inputs : List SaveInput)
    (st : Storage) (l : List SignatureData)
    (h : getStoredSignatures st = .ok l) :
    (runSaves online inputs st).1 =
      inputs.map (fun i => .ok (mkSignatureData i)) ∧
    getStoredSignatures (runSaves online inputs st).2 =
      .ok (l ++ inputs.map mkSignatureData) := by
  induction inputs generalizing st l with
  | nil =>
    refine ⟨rfl, ?_⟩
    rw [List.map_nil, List.append_nil]
    exact h
  | cons i rest ih =>
    obtain ⟨h1, h2⟩ := saveSignature_ok online i st l h
    have hnext : getStoredSignatures
        (saveSignature online i.newId i.now st i.documentId i.documentType
          i.signatureDataUrl).2 = .ok (l ++ [mkSignatureData i]) := by
      rw [h2]
      exact getStoredSignatures_write st (l ++ [mkSignatureData i])
    obtain ⟨ih1, ih2⟩ := ih _ _ hnext
    constructor
    · simp only [runSaves, List.map_cons]
      rw [h1, ih1]
    · simp only [runSaves]
      rw [ih2, List.append_assoc]
      rfl

/-- C7: starting from the empty store, `n` `saveSignature` calls (no
sync callback running in between) return their constructed records in
order, and `getStoredSignatures` then yields exactly those `n` records,
in call order, each with `synced = false`. -/
theorem c7_append_monotonicity (online : Bool) (inputs : List SaveInput) :
    (runSaves online inputs emptyStorage).1 =
      inputs.map (fun i => .ok (mkSignatureData i)) ∧
    getStoredSignatures (runSaves online inputs emptyStorage).2 =
      .ok (inputs.map mkSignatureData) ∧
    (inputs.map mkSignatureData).length = inputs.length ∧
    (inputs.map mkSignatureData).all (fun r => !r.synced) = true := by
  obtain ⟨h1, h2⟩ := runSaves_ok online inputs emptyStorage [] rfl
  refine ⟨h1, by simpa using h2, List.length_map inputs mkSignatureData, ?_⟩
  simp [List.all_eq_true, mkSignatureData]

/-- C8: both sync entry points are no-ops that schedule no push when the
device is offline at call time, and when the unsynced filter comes back
empty at call time; the storage is returned untouched in either case. -/
theorem c8_sync_noop (st st' : Storage) :
    attemptSync false st = .ok (st, []) ∧
    (getUnsyncedSignatures st' = .ok [] →
      attemptSync true st' = .ok (st', [])) ∧
    attemptSyncPDF false st = (st, []) ∧
    (getUnsyncedPDFSignatures st' = [] →
      attemptSyncPDF true st' = (st', [])) := by
  refine ⟨rfl, fun h => ?_, rfl, fun h => ?_⟩
  · unfold attemptSync
    rw [h]
    rfl
  · unfold attemptSyncPDF
    rw [h]
    rfl

/-- C8 witness: a store holding one already-synced plain record and one
already-synced PDF record is untouched by an online sync attempt. -/
theorem c8_sync_noop_witness :
    attemptSync true ⟨some (.val [⟨"a", "d", .invoice, "u", 3, true⟩]), none⟩ =
      .ok (⟨some (.val [⟨"a", "d", .invoice, "u", 3, true⟩]), none⟩, []) ∧
    attemptSyncPDF true emptyStorage = (emptyStorage, []) := by
  refine ⟨?_, ?_⟩
  · exact (c8_sync_noop emptyStorage
      ⟨some (.val [⟨"a", "d", .invoice, "u", 3, true⟩]), none⟩).2.1 rfl
  · exact (c8_sync_noop emptyStorage emptyStorage).2.2.2 rfl

/-- The frame relation of one sync-mark on a plain record: every field
except `synced` is unchanged, and `synced` itself is unchanged unless
the record is the one whose id matches. -/
def framePlain (id : String) (b a : SignatureData) : Prop :=
  a.id = b.id ∧ a.documentId = b.documentId ∧
  a.documentType = b.documentType ∧
  a.signatureDataUrl = b.signatureDataUrl ∧
  a.timestamp = b.timestamp ∧
  (b.id ≠ id → a.synced = b.synced)

/-- The frame relation of one sync-mark on a PDF record: the plain
fields as in `framePlain`, and the byte fields (after decode) and the
placement byte-for-byte unchanged. -/
def framePdf (id : String) (b a : PDFSignatureData) : Prop :=
  framePlain id b.toSignatureData a.toSignatureData ∧
  a.originalPdfBytes = b.originalPdfBytes ∧
  a.signedPdfBytes = b.signedPdfBytes ∧
  a.signaturePosition = b.signaturePosition

/-- The per-record update of `markAsSynced` satisfies the frame
relation. -/
theorem framePlain_markUpd (id : String) (s : SignatureData) :
    framePlain id s (markUpd id s) := by
  by_cases h : s.id = id <;> simp [framePlain, markUpd, h]

/-- The per-record update of `markPDFAsSynced` satisfies the frame
relation. -/
theorem framePdf_markUpdPdf (id : String) (s : PDFSignatureData) :
    framePdf id s (markUpdPdf id s) := by
  by_cases h : s.id = id <;>
    simp [framePdf, framePlain, markUpdPdf, h]

/-- Indexing a mapped list applies the function at the index. -/
theorem get_map_at {α β : Type} (f : α → β) (l : List α) (i : Nat)
    (h1 : i < l.length) (h2 : i < (l.map f).length) :
    (l.map f).get ⟨i, h2⟩ = f (l.get ⟨i, h1⟩) := by
  simp

/-- C9: marking an id as synced rewrites each stored sequence as the
per-record update mapped over it; the mapped sequence has the same
length and order, and position by position every field other than
`synced` — for PDF records including both byte fields after decode and
the placement — is unchanged, with `synced` itself unchanged on every
record whose id differs. -/
theorem c9_mark_synced_frame (id : String) (st : Storage) :
    (∀ l, getStoredSignatures st = .ok l →
      getStoredSignatures (markAsSynced id st).2 =
        .ok (l.map (markUpd id)) ∧
      (l.map (markUpd id)).length = l.length ∧
      ∀ i (h1 : i < l.length) (h2 : i < (l.map (markUpd id)).length),
        framePlain id (l.get ⟨i, h1⟩) ((l.map (markUpd id)).get ⟨i, h2⟩)) ∧
    getStoredPDFSignatures (markPDFAsSynced id st) =
      (getStoredPDFSignatures st).map (markUpdPdf id) ∧
    ((getStoredPDFSignatures st).map (markUpdPdf id)).length =
      (getStoredPDFSignatures st).length ∧
    ∀ i (h1 : i < (getStoredPDFSignatures st).length)
      (h2 : i < ((getStoredPDFSignatures st).map (markUpdPdf id)).length),
      framePdf id ((getStoredPDFSignatures st).get ⟨i, h1⟩)
        (((getStoredPDFSignatures st).map (markUpdPdf id)).get ⟨i, h2⟩) := by
  refine ⟨?_, getStored_markPdf id st, List.length_map _ _, ?_⟩
  · intro l hs
    refine ⟨?_, List.length_map _ _, ?_⟩
    · rw [markAsSynced_ok id st l hs]
      exact getStoredSignatures_write st _
    · intro i h1 h2
      rw [get_map_at (markUpd id) l i h1 h2]
      exact framePlain_markUpd id _
  · intro i h1 h2
    rw [get_map_at (markUpdPdf id) _ i h1 h2]
    exact framePdf_markUpdPdf id _

/-- A concrete two-record store: one plain record with id `a` (synced)
and one with id `b` (unsynced). -/
def sigA : SignatureData := ⟨"a", "d1", .invoice, "u1", 1, true⟩

/-- The second concrete plain record. -/
def sigB : SignatureData := ⟨"b", "d2", .receipt, "u2", 2, false⟩

/-- C9 witness: the frame condition instantiated on a concrete
two-record plain store, marking id `b`. -/
theorem c9_mark_synced_frame_witness :
    getStoredSignatures
        (markAsSynced "b" ⟨some (.val [sigA, sigB]), none⟩).2 =
      .ok ([sigA, sigB].map (markUpd "b")) ∧
    ([sigA, sigB].map (markUpd "b")).length = [sigA, sigB].length ∧
    ∀ i (h1 : i < [sigA, sigB].length)
      (h2 : i < ([sigA, sigB].map (markUpd "b")).length),
      framePlain "b" ([sigA, sigB].get ⟨i, h1⟩)
        (([sigA, sigB].map (markUpd "b")).get ⟨i, h2⟩) :=
  (c9_mark_synced_frame "b" ⟨some (.val [sigA, sigB]), none⟩).1
    [sigA, sigB] rfl

/-- C10: every record `savePDFSignature` returns carries
`documentType = invoice`; the operation takes no `documentType`
argument, so no PDF record with type `receipt` can be produced. -/
theorem c10_pdf_documentType_invoice (lib : PdfLib) (online : Bool)
    (newId : String) (now : Nat) (st : Storage) (documentId : String)
    (bytes : List Byte) (url : String) (pos : Position)
    (d : PDFSignatureData) (sch : List PDFSignatureData)
    (h : (savePDFSignature lib online newId now st documentId bytes url
        pos).1 = .ok (d, sch)) :
    d.documentType = DocType.invoice := by
  unfold savePDFSignature at h
  cases happ : applySignatureToPdf lib bytes url pos with
  | error e =>
    rw [happ] at h
    simp at h
  | ok sb =>
    rw [happ] at h
    dsimp only at h
    injection h with h2
    injection h2 with hd hsch
    rw [← hd]

/-- The record a concrete successful `savePDFSignature` call returns. -/
def pdfRecW : PDFSignatureData :=
  { id := "w1", documentId := "doc9", documentType := .invoice,
    signatureDataUrl := "url", timestamp := 5, synced := false,
    originalPdfBytes := some [], signedPdfBytes := some [],
    signaturePosition := some ⟨50, 700, 0⟩ }

/-- C10 witness: the record of a concrete successful call has type
`invoice`. -/
theorem c10_pdf_documentType_invoice_witness :
    pdfRecW.documentType = DocType.invoice :=
  c10_pdf_documentType_invoice okLib false "w1" 5 emptyStorage "doc9"
    [] "url" ⟨50, 700, 0⟩ pdfRecW [] rfl
